import Mathlib

/-!
Shallow embedding of the gofetch-client library.

The Python sources are embedded as pure Lean functions:

* `constants.py` — poll/backoff constants and the `GOFETCH_TO_APIFY_STATUS`
  mapping table, embedded as rational constants and an association list;
* `types.py` — the `JobStatus` enumeration and its `to_apify_status` method;
* `actor.py` — `ActorClient.call`, `ActorClient._wait_for_completion` and
  `ActorClient._format_as_apify_run`; the HTTP transport is abstracted as the
  sequence of responses the jobs endpoint would return, and wall-clock time is
  modelled by summing the sleep durations performed so far (requests take no
  model time, a sleep of d advances the clock by d);
* `run.py` — `RunClient.get`, `RunClient.wait_for_finish`, `RunClient.abort`;
* `webhook.py` / `webhook_client.py` — the event tables, `_format_webhook`
  and `WebhookClient.get` / creation;
* `dataset.py` — `DatasetClient.iterate_items` / `list_items` at their default
  arguments (offset 0, no limit), against a server holding a fixed result list.

Loops are embedded with an explicit fuel parameter; a `none` result means the
fuel ran out, which never happens in the theorems below (enough fuel is always
supplied or the result is hypothesised).

Helpers that `run.py` imports from `gofetch.actor` (`_is_terminal`,
`_next_poll_interval`, `_format_job_as_apify_run`) are not defined in the
available sources; they are modelled from the spec and marked as such.
-/

namespace GoFetch

/-- The builtin Python `min` on two rationals, written with an explicit `if` so
that it is kernel-computable. -/
def pymin (a b : ℚ) : ℚ := if a ≤ b then a else b

/-- constants.py: `DEFAULT_POLL_INTERVAL = 2.0` (seconds). -/
def DEFAULT_POLL_INTERVAL : ℚ := 2

/-- constants.py: `MAX_POLL_INTERVAL = 30.0` (seconds). -/
def MAX_POLL_INTERVAL : ℚ := 30

/-- constants.py: `POLL_BACKOFF_FACTOR = 1.5`. -/
def POLL_BACKOFF_FACTOR : ℚ := 3 / 2

/-- constants.py: `DEFAULT_PAGE_SIZE = 100`. -/
def DEFAULT_PAGE_SIZE : ℕ := 100

/-- constants.py lines 41-47: the `GOFETCH_TO_APIFY_STATUS` dict. It has five
entries; there is no entry for `timed_out`. -/
def GOFETCH_TO_APIFY_STATUS : List (String × String) :=
  [("pending", "READY"),
   ("running", "RUNNING"),
   ("completed", "SUCCEEDED"),
   ("failed", "FAILED"),
   ("cancelled", "ABORTED")]

/-- types.py: the `JobStatus` enumeration (six members). -/
inductive JobStatus where
  | pending
  | running
  | completed
  | failed
  | cancelled
  | timed_out
deriving DecidableEq

/-- types.py: the string value of each `JobStatus` member. -/
def JobStatus.val : JobStatus → String
  | .pending => "pending"
  | .running => "running"
  | .completed => "completed"
  | .failed => "failed"
  | .cancelled => "cancelled"
  | .timed_out => "timed_out"

/-- types.py lines 45-52: the local `status_map` dict inside
`JobStatus.to_apify_status` (six entries, including `timed_out`). -/
def JobStatus.to_apify_status_map : List (String × String) :=
  [("pending", "READY"),
   ("running", "RUNNING"),
   ("completed", "SUCCEEDED"),
   ("failed", "FAILED"),
   ("cancelled", "ABORTED"),
   ("timed_out", "TIMED-OUT")]

/-- types.py lines 43-53: `JobStatus.to_apify_status`, that is
`status_map.get(self.value, "RUNNING")`. -/
def JobStatus.to_apify_status (s : JobStatus) : String :=
  (JobStatus.to_apify_status_map.lookup s.val).getD "RUNNING"

/-- A GoFetch job record as observed from the jobs endpoint (the dict fields
actually read by the client code). -/
structure Job where
  id : String
  status : String
  scraper_type : Option String
  started_at : Option String
  completed_at : Option String
  error_message : Option String
deriving DecidableEq

/-- The Apify-format run record built by the formatters (the dict returned by
`_format_as_apify_run`); `gofetch_job` embeds the `_gofetch_job` key. -/
structure ApifyRun where
  id : String
  actId : String
  status : String
  defaultDatasetId : String
  startedAt : Option String
  finishedAt : Option String
  buildId : Option String
  buildNumber : Option String
  exitCode : Option Int
  defaultKeyValueStoreId : Option String
  defaultRequestQueueId : Option String
  gofetch_job : Job
deriving DecidableEq

/-- exceptions.py: `APIError` with its HTTP `status_code`. -/
structure APIError where
  message : String
  status_code : ℕ
deriving DecidableEq

/-- The outcome of one GET/POST against the jobs endpoint: either a job record
or a raised `APIError`. -/
abbrev Response := Except APIError Job

/-- actor.py lines 222-249: `ActorClient._format_as_apify_run`. The status is
`GOFETCH_TO_APIFY_STATUS.get(job["status"], "RUNNING")` and the `exitCode` is 0
exactly when that status is `SUCCEEDED`. -/
def formatAsApifyRun (scraper_type : String) (job : Job) : ApifyRun :=
  let status := (GOFETCH_TO_APIFY_STATUS.lookup job.status).getD "RUNNING"
  { id := job.id
    actId := "gofetch/" ++ scraper_type
    status := status
    defaultDatasetId := job.id
    startedAt := job.started_at
    finishedAt := job.completed_at
    buildId := none
    buildNumber := none
    exitCode := if status = "SUCCEEDED" then some 0 else none
    defaultKeyValueStoreId := none
    defaultRequestQueueId := none
    gofetch_job := job }

/-- actor.py line 207: the terminal check
`job["status"] in ("completed", "failed", "cancelled")` inside
`ActorClient._wait_for_completion`. Note `timed_out` is absent. -/
def inTerminalTuple (s : String) : Bool :=
  s == "completed" || s == "failed" || s == "cancelled"

/-- How `ActorClient._wait_for_completion` can end: with a terminal job, by
raising `TimeoutError`, or by a transport error propagating out of the poll. -/
inductive OldWaitOutcome where
  | job (j : Job)
  | timedOut
  | transport (e : APIError)
deriving DecidableEq

/-- The observable behaviour of one `_wait_for_completion` execution: its
outcome, the number of GET requests issued, and the sleep durations performed
in order. -/
structure OldWaitResult where
  outcome : OldWaitOutcome
  requests : ℕ
  sleeps : List ℚ
deriving DecidableEq

/-- actor.py lines 201-220: the polling loop of
`ActorClient._wait_for_completion`. `k` counts requests issued so far,
`elapsed` is the mock clock (sum of sleeps performed), `poll_interval` the
current backoff value. The loop polls only while `elapsed < timeout_secs` and
raises `TimeoutError` otherwise. -/
def waitForCompletionAux (poll : ℕ → Response) (timeout_secs : ℚ) :
    ℕ → ℕ → ℚ → ℚ → List ℚ → Option OldWaitResult
  | 0, _, _, _, _ => none
  | fuel + 1, k, elapsed, poll_interval, sleeps =>
    if elapsed < timeout_secs then
      match poll k with
      | .error e => some ⟨.transport e, k + 1, sleeps⟩
      | .ok job =>
        if inTerminalTuple job.status then
          some ⟨.job job, k + 1, sleeps⟩
        else
          waitForCompletionAux poll timeout_secs fuel (k + 1) (elapsed + poll_interval)
            (pymin (poll_interval * POLL_BACKOFF_FACTOR) MAX_POLL_INTERVAL)
            (sleeps ++ [poll_interval])
    else
      some ⟨.timedOut, k, sleeps⟩

/-- actor.py lines 181-220: `ActorClient._wait_for_completion` started with
`poll_interval = DEFAULT_POLL_INTERVAL` and the clock at zero. -/
def waitForCompletion (poll : ℕ → Response) (timeout_secs : ℚ) (fuel : ℕ) :
    Option OldWaitResult :=
  waitForCompletionAux poll timeout_secs fuel 0 0 DEFAULT_POLL_INTERVAL []

/-- The caller-visible outcome of `ActorClient.call`: an Apify run dict, a
raised `JobError`, a raised `TimeoutError`, or a propagated transport error. -/
inductive CallOutcome where
  | run (r : ApifyRun)
  | jobFailure (job_id : String) (status : String) (error_message : Option String)
  | timeout (timeout_secs : ℚ)
  | transport (e : APIError)
deriving DecidableEq

/-- actor.py lines 58-109: `ActorClient.call`. Creates the job (`createResp`
is the transport's answer to the POST), waits for completion, raises
`JobError` when the final status is `failed`, and otherwise formats the job as
an Apify run. -/
def call (scraper_type : String) (createResp : Response) (poll : ℕ → Response)
    (timeout_secs : ℚ) (fuel : ℕ) : Option CallOutcome :=
  match createResp with
  | .error e => some (.transport e)
  | .ok created =>
    match waitForCompletion poll timeout_secs fuel with
    | none => none
    | some res =>
      match res.outcome with
      | .transport e => some (.transport e)
      | .timedOut => some (.timeout timeout_secs)
      | .job j =>
        if j.status = "failed" then
          some (.jobFailure created.id j.status j.error_message)
        else
          some (.run (formatAsApifyRun scraper_type j))

/-- actor.py lines 143-163: `ActorClient._create_job` posts to
`/api/v1/jobs/create/` and returns the transport outcome unchanged; there is
no 404 handler, so any error response propagates as an exception. -/
def createJob (resp : Response) : Response := resp

/-- Modelled from the spec: `_is_terminal`, imported by run.py from
`gofetch.actor` but not present in the available sources. Spec §3/§4.1:
terminal statuses are exactly completed, failed, cancelled and timed_out. -/
def is_terminal (s : String) : Bool :=
  s == "completed" || s == "failed" || s == "cancelled" || s == "timed_out"

/-- Modelled from the spec: `_next_poll_interval`, imported by run.py from
`gofetch.actor` but not present in the available sources. Spec §4.1/§8: the
interval grows by the 1.5 factor on every non-terminal poll, capped at 30 —
the same update rule written inline at actor.py line 214. -/
def next_poll_interval (i : ℚ) : ℚ :=
  pymin (i * POLL_BACKOFF_FACTOR) MAX_POLL_INTERVAL

/-- Modelled from the spec: the job-status → caller-status table used by the
shared run formatter (spec §4.2), with all six entries; unmapped input falls
back to RUNNING. -/
def spec_status_map : List (String × String) :=
  [("pending", "READY"),
   ("running", "RUNNING"),
   ("completed", "SUCCEEDED"),
   ("failed", "FAILED"),
   ("cancelled", "ABORTED"),
   ("timed_out", "TIMED-OUT")]

/-- Modelled from the spec: `_format_job_as_apify_run`, imported by run.py
from `gofetch.actor` but not present in the available sources. Spec §4.2: the
caller-facing Run record derives dataset id = job id, actor id = job-type
with the gofetch namespace, exit code 0 iff translated status SUCCEEDED,
placeholder nulls elsewhere, and retains the original job record. -/
def format_job_as_apify_run (job : Job) (scraper_type : Option String) : ApifyRun :=
  let status := (spec_status_map.lookup job.status).getD "RUNNING"
  { id := job.id
    actId := "gofetch/" ++ scraper_type.getD ""
    status := status
    defaultDatasetId := job.id
    startedAt := job.started_at
    finishedAt := job.completed_at
    buildId := none
    buildNumber := none
    exitCode := if status = "SUCCEEDED" then some 0 else none
    defaultKeyValueStoreId := none
    defaultRequestQueueId := none
    gofetch_job := job }

/-- run.py lines 41-53: `RunClient.get` — a 404 from the lookup is translated
to `None`, any other `APIError` re-raised, and a job record formatted. -/
def runGet (resp : Response) : Except APIError (Option ApifyRun) :=
  match resp with
  | .error e => if e.status_code = 404 then .ok none else .error e
  | .ok job => .ok (some (format_job_as_apify_run job job.scraper_type))

/-- run.py line 82: `wait_secs is not None and (time.monotonic() - start_time)
>= wait_secs`, on the mock clock. -/
def budgetElapsed : Option ℚ → ℚ → Bool
  | none, _ => false
  | some w, elapsed => decide (w ≤ elapsed)

/-- The observable behaviour of one `RunClient.wait_for_finish` execution:
its outcome (`.ok none` is the 404 → `None` translation, `.error` a re-raised
transport error), the number of GET requests issued, and the sleeps
performed. -/
structure WaitForFinishResult where
  outcome : Except APIError (Option ApifyRun)
  requests : ℕ
  sleeps : List ℚ

/-- run.py lines 69-88: the polling loop of `RunClient.wait_for_finish`.
Every iteration polls first; a 404 yields `None`, a terminal status returns
the formatted snapshot, an elapsed budget returns the current (non-terminal)
snapshot, and otherwise the loop sleeps and backs off. -/
def waitForFinishAux (poll : ℕ → Response) (wait_secs : Option ℚ) :
    ℕ → ℕ → ℚ → ℚ → List ℚ → Option WaitForFinishResult
  | 0, _, _, _, _ => none
  | fuel + 1, k, elapsed, poll_interval, sleeps =>
    match poll k with
    | .error e =>
      if e.status_code = 404 then some ⟨.ok none, k + 1, sleeps⟩
      else some ⟨.error e, k + 1, sleeps⟩
    | .ok job =>
      if is_terminal job.status then
        some ⟨.ok (some (format_job_as_apify_run job job.scraper_type)), k + 1, sleeps⟩
      else if budgetElapsed wait_secs elapsed then
        some ⟨.ok (some (format_job_as_apify_run job job.scraper_type)), k + 1, sleeps⟩
      else
        waitForFinishAux poll wait_secs fuel (k + 1) (elapsed + poll_interval)
          (next_poll_interval poll_interval) (sleeps ++ [poll_interval])

/-- run.py lines 55-88: `RunClient.wait_for_finish` started with
`poll_interval = DEFAULT_POLL_INTERVAL` and the clock at zero;
`wait_secs = none` waits indefinitely. -/
def wait_for_finish (poll : ℕ → Response) (wait_secs : Option ℚ) (fuel : ℕ) :
    Option WaitForFinishResult :=
  waitForFinishAux poll wait_secs fuel 0 0 DEFAULT_POLL_INTERVAL []

/-- run.py lines 90-111: `RunClient.abort`. POSTs to the cancel endpoint; on a
404 it falls back to a GET of the job's current state; any other error
re-raises; the resulting job record is formatted as an Apify run. -/
def runAbort (cancelResp : Response) (getResp : Response) :
    Except APIError ApifyRun :=
  match cancelResp with
  | .ok job => .ok (format_job_as_apify_run job job.scraper_type)
  | .error e =>
    if e.status_code = 404 then
      match getResp with
      | .ok job => .ok (format_job_as_apify_run job job.scraper_type)
      | .error e2 => .error e2
    else
      .error e

/-- webhook.py lines 50-58: the `GOFETCH_TO_APIFY_EVENTS` dict. Both
`job.started` and `job.progress` map to `ACTOR.RUN.RUNNING`. -/
def GOFETCH_TO_APIFY_EVENTS : List (String × String) :=
  [("job.created", "ACTOR.RUN.CREATED"),
   ("job.started", "ACTOR.RUN.RUNNING"),
   ("job.progress", "ACTOR.RUN.RUNNING"),
   ("job.completed", "ACTOR.RUN.SUCCEEDED"),
   ("job.failed", "ACTOR.RUN.FAILED"),
   ("job.timed_out", "ACTOR.RUN.TIMED_OUT"),
   ("job.cancelled", "ACTOR.RUN.ABORTED")]

/-- webhook.py lines 63-70: the hand-written `APIFY_TO_GOFETCH_EVENTS` dict;
`ACTOR.RUN.RUNNING` reverse-maps to the canonical `job.started`. -/
def APIFY_TO_GOFETCH_EVENTS : List (String × String) :=
  [("ACTOR.RUN.CREATED", "job.created"),
   ("ACTOR.RUN.RUNNING", "job.started"),
   ("ACTOR.RUN.SUCCEEDED", "job.completed"),
   ("ACTOR.RUN.FAILED", "job.failed"),
   ("ACTOR.RUN.TIMED_OUT", "job.timed_out"),
   ("ACTOR.RUN.ABORTED", "job.cancelled")]

/-- webhook_client.py: the translation `APIFY_TO_GOFETCH_EVENTS.get(et, et)`
applied to each caller-supplied event type (create/update paths). -/
def apify_event_to_gofetch (et : String) : String :=
  (APIFY_TO_GOFETCH_EVENTS.lookup et).getD et

/-- webhook_client.py: the translation `GOFETCH_TO_APIFY_EVENTS.get(e, e)`
applied to each stored event on the way out (`_format_webhook`). -/
def gofetch_event_to_apify (e : String) : String :=
  (GOFETCH_TO_APIFY_EVENTS.lookup e).getD e

/-- A GoFetch webhook record as returned by the webhooks endpoint (the dict
fields read by `_format_webhook`). -/
structure GFWebhook where
  id : String
  url : String
  events : List String
  is_active : Bool
  signing_secret : Option String
  failed_deliveries : Option ℕ
  last_delivery_at : Option String
  created_at : Option String
deriving DecidableEq

/-- The Apify-format webhook dict built by `_format_webhook`. -/
structure ApifyWebhook where
  id : String
  requestUrl : String
  eventTypes : List String
  isActive : Bool
  signingSecret : Option String
  failedDeliveries : Option ℕ
  lastDeliveryAt : Option String
  createdAt : Option String
deriving DecidableEq

/-- webhook_client.py lines 19-34: `_format_webhook` — renames fields and
translates each stored event through `GOFETCH_TO_APIFY_EVENTS.get(e, e)`. -/
def format_webhook (w : GFWebhook) : ApifyWebhook :=
  { id := w.id
    requestUrl := w.url
    eventTypes := w.events.map gofetch_event_to_apify
    isActive := w.is_active
    signingSecret := w.signing_secret
    failedDeliveries := w.failed_deliveries
    lastDeliveryAt := w.last_delivery_at
    createdAt := w.created_at }

/-- webhook_client.py lines 110-118: `WebhookClient.get` — a 404 is
translated to `None`, any other `APIError` re-raised. -/
def webhookGet (resp : Except APIError GFWebhook) :
    Except APIError (Option ApifyWebhook) :=
  match resp with
  | .error e => if e.status_code = 404 then .ok none else .error e
  | .ok w => .ok (some (format_webhook w))

/-- webhook_client.py lines 75-100: the response handling of
`WebhookCollectionClient.create` — the POST outcome is formatted on success
and propagates unchanged on error (no 404 handler on a write). -/
def webhookCreate (resp : Except APIError GFWebhook) :
    Except APIError ApifyWebhook :=
  match resp with
  | .error e => .error e
  | .ok w => .ok (format_webhook w)

/-- dataset.py lines 82-113: the pagination loop of
`DatasetClient.iterate_items` at its default arguments (offset 0, no limit).
The server holds the full result list; a request at `current_offset` returns
the page `(server.drop current_offset).take DEFAULT_PAGE_SIZE` together with
`total = server.length`. Returns the yielded items (each one augmented with
its `runId` back-reference, modelled as a pair) and the number of requests
issued. -/
def iterateItemsAux (job_id : String) (server : List α) :
    ℕ → ℕ → List (α × String) × ℕ
  | _, 0 => ([], 0)
  | current_offset, fuel + 1 =>
    let items := (server.drop current_offset).take DEFAULT_PAGE_SIZE
    if items.isEmpty then
      ([], 1)
    else
      let new_offset := current_offset + items.length
      if server.length ≤ new_offset then
        (items.map (fun it => (it, job_id)), 1)
      else
        let rest := iterateItemsAux job_id server new_offset fuel
        (items.map (fun it => (it, job_id)) ++ rest.1, rest.2 + 1)

/-- dataset.py lines 51-113: `DatasetClient.iterate_items` at default
arguments, with enough fuel for the whole result list. -/
def iterate_items (job_id : String) (server : List α) :
    List (α × String) × ℕ :=
  iterateItemsAux job_id server 0 (server.length + 1)

/-- dataset.py lines 115-152: `DatasetClient.list_items` is
`list(self.iterate_items(...))`. -/
def list_items (job_id : String) (server : List α) :
    List (α × String) × ℕ :=
  iterate_items job_id server

/-- The backoff sequence generated by the polling loops: starts at
`DEFAULT_POLL_INTERVAL` and applies the actor.py line 214 update
`min(poll_interval * POLL_BACKOFF_FACTOR, MAX_POLL_INTERVAL)` at each step. -/
def pollIntervalSeq : ℕ → ℚ
  | 0 => DEFAULT_POLL_INTERVAL
  | n + 1 => pymin (pollIntervalSeq n * POLL_BACKOFF_FACTOR) MAX_POLL_INTERVAL

/-- A pending job as the create endpoint would report it. -/
def pendingJob : Job :=
  ⟨"job-123", "pending", some "instagram", none, none, none⟩

/-- A running job snapshot. -/
def runningJob : Job :=
  ⟨"job-123", "running", some "instagram", some "2024-01-01T00:00:00Z", none, none⟩

/-- A failed job snapshot with an error message. -/
def failedJob : Job :=
  ⟨"job-123", "failed", some "instagram", some "2024-01-01T00:00:00Z",
    some "2024-01-01T00:05:00Z", some "boom"⟩

/-- A timed-out job snapshot. -/
def timedOutJob : Job :=
  ⟨"job-123", "timed_out", some "instagram", some "2024-01-01T00:00:00Z",
    some "2024-01-01T00:05:00Z", none⟩

/-- A cancelled job snapshot. -/
def cancelledJob : Job :=
  ⟨"job-123", "cancelled", some "instagram", some "2024-01-01T00:00:00Z",
    some "2024-01-01T00:05:00Z", none⟩

/-- A poll trace on which the server reports `running` forever. -/
def runningPoll : ℕ → Response := fun _ => .ok runningJob

/-- A poll trace on which the server reports `timed_out` forever. -/
def timedOutPoll : ℕ → Response := fun _ => .ok timedOutJob

/-- Helper: the explicit-if embedding of Python's `min` agrees with the order
theoretic `min` on ℚ. -/
theorem pymin_eq_min (a b : ℚ) : pymin a b = min a b := by
  by_cases h : a ≤ b
  · rw [pymin, if_pos h, min_eq_left h]
  · rw [pymin, if_neg h, min_eq_right (le_of_not_le h)]

/-- C2: the status translation used when formatting a Run
(`GOFETCH_TO_APIFY_STATUS.get(status, "RUNNING")`) maps the five statuses
pending/running/completed/failed/cancelled as claimed, but maps `timed_out`
to RUNNING via the default — the table has no `timed_out` entry — while
`JobStatus.to_apify_status` in types.py maps `timed_out` to TIMED-OUT.
The claim's `timed_out → TIMED-OUT` is false of the Run formatter. -/
theorem status_map_timed_out_divergence :
    (GOFETCH_TO_APIFY_STATUS.lookup "pending").getD "RUNNING" = "READY" ∧
    (GOFETCH_TO_APIFY_STATUS.lookup "running").getD "RUNNING" = "RUNNING" ∧
    (GOFETCH_TO_APIFY_STATUS.lookup "completed").getD "RUNNING" = "SUCCEEDED" ∧
    (GOFETCH_TO_APIFY_STATUS.lookup "failed").getD "RUNNING" = "FAILED" ∧
    (GOFETCH_TO_APIFY_STATUS.lookup "cancelled").getD "RUNNING" = "ABORTED" ∧
    (formatAsApifyRun "instagram" timedOutJob).status = "RUNNING" ∧
    JobStatus.to_apify_status JobStatus.timed_out = "TIMED-OUT" := by
  decide

/-- C8: translating each of the six caller-facing webhook event names to the
server vocabulary and back yields the original name; `ACTOR.RUN.RUNNING`
reverse-maps to the canonical `job.started`; both `job.started` and
`job.progress` forward-map to `ACTOR.RUN.RUNNING`, so the round trip starting
from `job.progress` lands on `job.started`, not `job.progress`. -/
theorem webhook_event_round_trip :
    gofetch_event_to_apify (apify_event_to_gofetch "ACTOR.RUN.CREATED") =
      "ACTOR.RUN.CREATED" ∧
    gofetch_event_to_apify (apify_event_to_gofetch "ACTOR.RUN.RUNNING") =
      "ACTOR.RUN.RUNNING" ∧
    gofetch_event_to_apify (apify_event_to_gofetch "ACTOR.RUN.SUCCEEDED") =
      "ACTOR.RUN.SUCCEEDED" ∧
    gofetch_event_to_apify (apify_event_to_gofetch "ACTOR.RUN.FAILED") =
      "ACTOR.RUN.FAILED" ∧
    gofetch_event_to_apify (apify_event_to_gofetch "ACTOR.RUN.TIMED_OUT") =
      "ACTOR.RUN.TIMED_OUT" ∧
    gofetch_event_to_apify (apify_event_to_gofetch "ACTOR.RUN.ABORTED") =
      "ACTOR.RUN.ABORTED" ∧
    apify_event_to_gofetch "ACTOR.RUN.RUNNING" = "job.started" ∧
    gofetch_event_to_apify "job.started" = "ACTOR.RUN.RUNNING" ∧
    gofetch_event_to_apify "job.progress" = "ACTOR.RUN.RUNNING" ∧
    apify_event_to_gofetch (gofetch_event_to_apify "job.progress") =
      "job.started" := by
  decide

/-- C10: for every job record, the formatted Run has `defaultDatasetId` equal
to the job id, `actId` equal to the job-type tag with the gofetch namespace
prefix, `exitCode = 0` exactly when the translated status is SUCCEEDED (and
null otherwise), and retains the original job under the escape-hatch key. -/
theorem format_run_fields (scraper_type : String) (job : Job) :
    (formatAsApifyRun scraper_type job).defaultDatasetId = job.id ∧
    (formatAsApifyRun scraper_type job).actId = "gofetch/" ++ scraper_type ∧
    ((formatAsApifyRun scraper_type job).exitCode = some 0 ↔
      (formatAsApifyRun scraper_type job).status = "SUCCEEDED") ∧
    ((formatAsApifyRun scraper_type job).status ≠ "SUCCEEDED" →
      (formatAsApifyRun scraper_type job).exitCode = none) ∧
    (formatAsApifyRun scraper_type job).gofetch_job = job := by
  by_cases h : (GOFETCH_TO_APIFY_STATUS.lookup job.status).getD "RUNNING" = "SUCCEEDED" <;>
    simp [formatAsApifyRun, h]

/-- C10 witness: the formatter properties instantiated at a concrete
cancelled job. -/
theorem format_run_fields_witness :
    (formatAsApifyRun "instagram" cancelledJob).defaultDatasetId = cancelledJob.id ∧
    (formatAsApifyRun "instagram" cancelledJob).actId = "gofetch/" ++ "instagram" ∧
    ((formatAsApifyRun "instagram" cancelledJob).exitCode = some 0 ↔
      (formatAsApifyRun "instagram" cancelledJob).status = "SUCCEEDED") ∧
    ((formatAsApifyRun "instagram" cancelledJob).status ≠ "SUCCEEDED" →
      (formatAsApifyRun "instagram" cancelledJob).exitCode = none) ∧
    (formatAsApifyRun "instagram" cancelledJob).gofetch_job = cancelledJob :=
  format_run_fields "instagram" cancelledJob

/-- C9 counterexample: a result set of zero items still costs one request —
the loop always issues a first page request and only then sees the empty
page — whereas `ceil(0 / 100) = 0`. -/
theorem pagination_zero_items_counterexample :
    (iterate_items "job-123" ([] : List ℕ)).2 = 1 ∧
    (List.length ([] : List ℕ) + (DEFAULT_PAGE_SIZE - 1)) / DEFAULT_PAGE_SIZE = 0 ∧
    (iterate_items "job-123" ([] : List ℕ)).2 ≠
      (List.length ([] : List ℕ) + (DEFAULT_PAGE_SIZE - 1)) / DEFAULT_PAGE_SIZE := by
  decide

/-- Helper: closed form of the pagination loop on a non-exhausted server —
it returns every remaining item in order (augmented with the job id) and
issues `ceil(remaining / DEFAULT_PAGE_SIZE)` requests. -/
theorem iterateItemsAux_spec {α : Type} (job_id : String) (server : List α) :
    ∀ fuel current_offset, current_offset < server.length →
      server.length ≤ current_offset + DEFAULT_PAGE_SIZE * fuel →
      iterateItemsAux job_id server current_offset fuel =
        ((server.drop current_offset).map (fun it => (it, job_id)),
          (server.length - current_offset + (DEFAULT_PAGE_SIZE - 1)) /
            DEFAULT_PAGE_SIZE) := by
  intro fuel
  induction fuel with
  | zero =>
    intro off h1 h2
    simp only [DEFAULT_PAGE_SIZE] at h2
    omega
  | succ f ih =>
    intro off h1 h2
    have hlen : ((server.drop off).take DEFAULT_PAGE_SIZE).length =
        min DEFAULT_PAGE_SIZE (server.length - off) := by
      simp [List.length_take, List.length_drop]
    have hne : ((server.drop off).take DEFAULT_PAGE_SIZE).isEmpty = false := by
      rw [List.isEmpty_eq_false]
      intro hnil
      rw [hnil] at hlen
      simp only [List.length_nil, DEFAULT_PAGE_SIZE] at hlen
      omega
    by_cases hc : server.length ≤ off + ((server.drop off).take DEFAULT_PAGE_SIZE).length
    · have hRle : server.length - off ≤ DEFAULT_PAGE_SIZE := by
        rw [hlen] at hc
        simp only [DEFAULT_PAGE_SIZE] at hc ⊢
        omega
      have htake : (server.drop off).take DEFAULT_PAGE_SIZE = server.drop off := by
        apply List.take_of_length_le
        rw [List.length_drop]
        exact hRle
      simp only [iterateItemsAux, hne, Bool.false_eq_true, if_false, if_pos hc]
      rw [htake]
      have hcount : 1 = (server.length - off + (DEFAULT_PAGE_SIZE - 1)) /
          DEFAULT_PAGE_SIZE := by
        simp only [DEFAULT_PAGE_SIZE] at hRle ⊢
        omega
      rw [← hcount]
    · have hRgt : DEFAULT_PAGE_SIZE < server.length - off := by
        rw [hlen] at hc
        simp only [DEFAULT_PAGE_SIZE] at hc ⊢
        omega
      have hlen100 : ((server.drop off).take DEFAULT_PAGE_SIZE).length =
          DEFAULT_PAGE_SIZE := by
        rw [hlen]
        simp only [DEFAULT_PAGE_SIZE] at hRgt ⊢
        omega
      have h1' : off + DEFAULT_PAGE_SIZE < server.length := by
        simp only [DEFAULT_PAGE_SIZE] at hRgt ⊢
        omega
      have h2' : server.length ≤ off + DEFAULT_PAGE_SIZE + DEFAULT_PAGE_SIZE * f := by
        simp only [DEFAULT_PAGE_SIZE] at h2 ⊢
        omega
      rw [hlen100] at hc
      simp only [iterateItemsAux, hne, Bool.false_eq_true, if_false, hlen100]
      rw [ih (off + DEFAULT_PAGE_SIZE) h1' h2', if_neg hc]
      simp only [Prod.mk.injEq]
      constructor
      · rw [← List.map_append]
        have hdd : server.drop (off + DEFAULT_PAGE_SIZE) =
            (server.drop off).drop DEFAULT_PAGE_SIZE := by
          rw [List.drop_drop, Nat.add_comm]
        rw [hdd, List.take_append_drop]
      · simp only [DEFAULT_PAGE_SIZE] at h1' ⊢
        omega

/-- C9 amended: for a result set of at least one item, the lazy retrieval
returns exactly the server's items in order (each augmented with the run id),
issues exactly `ceil(N / 100)` requests, and the eager retrieval is the same
computation; a result set of zero items instead costs one probe request. -/
theorem pagination_completeness_amended {α : Type} (job_id : String)
    (server : List α) (h : 1 ≤ server.length) :
    (iterate_items job_id server).1.map Prod.fst = server ∧
    (iterate_items job_id server).2 =
      (server.length + (DEFAULT_PAGE_SIZE - 1)) / DEFAULT_PAGE_SIZE ∧
    list_items job_id server = iterate_items job_id server := by
  have e := iterateItemsAux_spec job_id server (server.length + 1) 0
    (by omega) (by simp only [DEFAULT_PAGE_SIZE]; omega)
  refine ⟨?_, ?_, rfl⟩
  · unfold iterate_items
    rw [e]
    simp [List.map_map, Function.comp_def]
  · unfold iterate_items
    rw [e]
    simp

/-- C9 amended witness: the amended pagination law at a concrete three item
result set (one page, one request). -/
theorem pagination_amended_witness :
    1 ≤ List.length [10, 20, 30] ∧
    ((iterate_items "job-9" [10, 20, 30]).1.map Prod.fst = [10, 20, 30] ∧
      (iterate_items "job-9" [10, 20, 30]).2 =
        (List.length [10, 20, 30] + (DEFAULT_PAGE_SIZE - 1)) / DEFAULT_PAGE_SIZE ∧
      list_items "job-9" [10, 20, 30] = iterate_items "job-9" [10, 20, 30]) :=
  ⟨by decide, pagination_completeness_amended "job-9" [10, 20, 30] (by decide)⟩

/-- C1: `ActorClient.call` does raise on business outcomes — with the server
reporting `failed` on the first poll it ends in a raised `JobError`, and with
a zero wait budget against a `running` job it ends in a raised
`TimeoutError` — instead of returning a Run snapshot, contradicting the
never-raises contract (which the repository's own tests assert). -/
theorem call_raises_on_business_outcomes :
    call "instagram" (.ok pendingJob) (fun _ => .ok failedJob) 60 10 =
      some (.jobFailure "job-123" "failed" (some "boom")) ∧
    call "instagram" (.ok pendingJob) runningPoll 0 10 =
      some (.timeout 0) := by
  constructor
  · norm_num [call, waitForCompletion, waitForCompletionAux, inTerminalTuple,
      failedJob, pendingJob]
  · norm_num [call, waitForCompletion, waitForCompletionAux, runningPoll,
      runningJob, inTerminalTuple, pendingJob]

/-- C3: the terminal check of `ActorClient._wait_for_completion` omits
`timed_out`, so after observing a `timed_out` job the loop keeps polling (four
requests within a budget of 10) and ends by raising `TimeoutError` instead of
returning after the first observation; `RunClient.wait_for_finish`, which uses
the spec's four-status terminal set, stops after exactly one request. -/
theorem terminal_tuple_omits_timed_out :
    inTerminalTuple "timed_out" = false ∧
    is_terminal "timed_out" = true ∧
    waitForCompletion timedOutPoll 10 20 =
      some ⟨.timedOut, 4, [2, 3, 9/2, 27/4]⟩ ∧
    wait_for_finish timedOutPoll (some 10) 20 =
      some ⟨.ok (some (format_job_as_apify_run timedOutJob
        timedOutJob.scraper_type)), 1, []⟩ := by
  have ht : inTerminalTuple "timed_out" = false := by decide
  refine ⟨by decide, by decide, ?_, ?_⟩
  · norm_num [waitForCompletion, waitForCompletionAux, timedOutPoll, timedOutJob,
      ht, pymin, DEFAULT_POLL_INTERVAL, POLL_BACKOFF_FACTOR,
      MAX_POLL_INTERVAL]
  · norm_num [wait_for_finish, waitForFinishAux, timedOutPoll, timedOutJob,
      is_terminal, DEFAULT_POLL_INTERVAL]

/-- C5: with a wait budget of 0 against a job the server reports as `running`,
`ActorClient._wait_for_completion` issues zero poll requests and raises
`TimeoutError` (the deadline is checked before the first poll), while
`RunClient.wait_for_finish` polls exactly once and returns the current Run
snapshot, whose status is RUNNING, raising nothing. -/
theorem zero_budget_single_poll :
    waitForCompletion runningPoll 0 10 = some ⟨.timedOut, 0, []⟩ ∧
    wait_for_finish runningPoll (some 0) 10 =
      some ⟨.ok (some (format_job_as_apify_run runningJob
        runningJob.scraper_type)), 1, []⟩ ∧
    (format_job_as_apify_run runningJob runningJob.scraper_type).status =
      "RUNNING" := by
  refine ⟨?_, ?_, by decide⟩
  · norm_num [waitForCompletion, waitForCompletionAux]
  · norm_num [wait_for_finish, waitForFinishAux, runningPoll, runningJob,
      is_terminal, budgetElapsed, DEFAULT_POLL_INTERVAL]

/-- C6: a 404 on a lookup is translated to an absence signal and never
re-raised — `RunClient.get` and `WebhookClient.get` return `None`, and the
polling look-up `wait_for_finish` returns `None` after its single request —
whereas job creation and webhook creation forward the transport outcome
unchanged, so a 404 there propagates as an exception. -/
theorem lookup_404_asymmetry (e : APIError) (h : e.status_code = 404) :
    runGet (.error e) = .ok none ∧
    webhookGet (.error e) = .ok none ∧
    (∀ (w : Option ℚ) (fuel : ℕ),
      wait_for_finish (fun _ => .error e) w (fuel + 1) =
        some ⟨.ok none, 1, []⟩) ∧
    (∀ r : Response, createJob r = r) ∧
    (∀ e2 : APIError, webhookCreate (.error e2) = .error e2) := by
  refine ⟨?_, ?_, ?_, fun r => rfl, fun e2 => rfl⟩
  · simp [runGet, h]
  · simp [webhookGet, h]
  · intro w fuel
    simp [wait_for_finish, waitForFinishAux, h]

/-- C6 witness: the 404 asymmetry at the concrete not-found error. -/
theorem lookup_404_asymmetry_witness :
    (⟨"Not found", 404⟩ : APIError).status_code = 404 ∧
    (runGet (.error ⟨"Not found", 404⟩) = .ok none ∧
      webhookGet (.error ⟨"Not found", 404⟩) = .ok none ∧
      (∀ (w : Option ℚ) (fuel : ℕ),
        wait_for_finish (fun _ => .error ⟨"Not found", 404⟩) w (fuel + 1) =
          some ⟨.ok none, 1, []⟩) ∧
      (∀ r : Response, createJob r = r) ∧
      (∀ e2 : APIError, webhookCreate (.error e2) = .error e2)) :=
  ⟨rfl, lookup_404_asymmetry ⟨"Not found", 404⟩ rfl⟩

/-- C7: `RunClient.abort` is idempotent from the caller's point of view —
when the cancel POST succeeds (including on an already-terminal job whose
current state the server reports back) the state is returned in Run format,
when the cancel POST hits a 404 the job's current state is fetched and
returned instead of raising, and a job whose status is `cancelled` formats to
status ABORTED. -/
theorem abort_idempotent (e : APIError) (he : e.status_code = 404)
    (j : Job) (getResp : Response) (hg : getResp = .ok j) :
    (∀ (j2 : Job) (r : Response), runAbort (.ok j2) r =
      .ok (format_job_as_apify_run j2 j2.scraper_type)) ∧
    runAbort (.error e) getResp =
      .ok (format_job_as_apify_run j j.scraper_type) ∧
    (∀ j2 : Job, j2.status = "cancelled" →
      (format_job_as_apify_run j2 j2.scraper_type).status = "ABORTED") := by
  refine ⟨fun j2 r => rfl, ?_, ?_⟩
  · simp [runAbort, he, hg]
  · intro j2 hj2
    simp [format_job_as_apify_run, hj2, spec_status_map, List.lookup]

/-- C7 witness: aborting a job already cancelled server-side — the cancel
endpoint answers 404, the fallback lookup reports the `cancelled` job, and
abort returns it as an ABORTED Run without raising. -/
theorem abort_idempotent_witness :
    (⟨"Not found", 404⟩ : APIError).status_code = 404 ∧
    ((.ok cancelledJob : Response) = .ok cancelledJob) ∧
    ((∀ (j2 : Job) (r : Response), runAbort (.ok j2) r =
        .ok (format_job_as_apify_run j2 j2.scraper_type)) ∧
      runAbort (.error ⟨"Not found", 404⟩) (.ok cancelledJob) =
        .ok (format_job_as_apify_run cancelledJob cancelledJob.scraper_type) ∧
      (∀ j2 : Job, j2.status = "cancelled" →
        (format_job_as_apify_run j2 j2.scraper_type).status = "ABORTED")) :=
  ⟨rfl, rfl,
    abort_idempotent ⟨"Not found", 404⟩ rfl cancelledJob (.ok cancelledJob) rfl⟩

/-- Helper: on a poll trace that never reports a terminal status, every
completed execution of the `_wait_for_completion` loop emits a prefix of the
backoff sequence as its sleep durations — its interval state at step j is
`pollIntervalSeq j` and its recorded sleeps are the first j values. -/
theorem waitForCompletionAux_sleeps_law (poll : ℕ → Response) (timeout_secs : ℚ)
    (hp : ∀ k, ∃ j, poll k = Except.ok j ∧ inTerminalTuple j.status = false) :
    ∀ fuel k j elapsed res,
      waitForCompletionAux poll timeout_secs fuel k elapsed (pollIntervalSeq j)
        ((List.range j).map pollIntervalSeq) = some res →
      ∃ m, res.sleeps = (List.range m).map pollIntervalSeq := by
  intro fuel
  induction fuel with
  | zero =>
    intro k j elapsed res h
    simp [waitForCompletionAux] at h
  | succ f ih =>
    intro k j elapsed res h
    simp only [waitForCompletionAux] at h
    by_cases hb : elapsed < timeout_secs
    · rw [if_pos hb] at h
      obtain ⟨jb, hjb, hterm⟩ := hp k
      rw [hjb] at h
      simp only [hterm, Bool.false_eq_true, if_false] at h
      have e1 : pymin (pollIntervalSeq j * POLL_BACKOFF_FACTOR) MAX_POLL_INTERVAL =
          pollIntervalSeq (j + 1) := rfl
      have e2 : (List.range j).map pollIntervalSeq ++ [pollIntervalSeq j] =
          (List.range (j + 1)).map pollIntervalSeq := by
        rw [List.range_succ, List.map_append, List.map_singleton]
      rw [e1, e2] at h
      exact ih (k + 1) (j + 1) _ res h
    · rw [if_neg hb] at h
      refine ⟨j, ?_⟩
      cases h
      rfl

/-- C4: in any completed polling execution of
`ActorClient._wait_for_completion` in which the job never reaches a terminal
state, the sleep durations are an initial segment of the backoff sequence,
and that sequence starts at 2, obeys
`interval(n+1) = min(interval(n) * 1.5, 30)` — so runs 2, 3, 4.5, 6.75, … —
and stays at 30 forever once the cap is reached (from index 7 on). -/
theorem backoff_law (poll : ℕ → Response) (timeout_secs : ℚ) (fuel : ℕ)
    (res : OldWaitResult)
    (hp : ∀ k, ∃ j, poll k = Except.ok j ∧ inTerminalTuple j.status = false)
    (hrun : waitForCompletion poll timeout_secs fuel = some res) :
    (∃ m, res.sleeps = (List.range m).map pollIntervalSeq) ∧
    pollIntervalSeq 0 = 2 ∧
    (∀ n, pollIntervalSeq (n + 1) = min (pollIntervalSeq n * (3 / 2)) 30) ∧
    pollIntervalSeq 1 = 3 ∧
    pollIntervalSeq 2 = 9 / 2 ∧
    pollIntervalSeq 3 = 27 / 4 ∧
    (∀ n, pollIntervalSeq n = 30 → ∀ m, n ≤ m → pollIntervalSeq m = 30) ∧
    (∀ n, 7 ≤ n → pollIntervalSeq n = 30) := by
  have hstay : ∀ n, pollIntervalSeq n = 30 → pollIntervalSeq (n + 1) = 30 := by
    intro n hn
    show pymin (pollIntervalSeq n * POLL_BACKOFF_FACTOR) MAX_POLL_INTERVAL = 30
    rw [hn]
    norm_num [pymin, POLL_BACKOFF_FACTOR, MAX_POLL_INTERVAL]
  have hstay2 : ∀ n, pollIntervalSeq n = 30 → ∀ m, n ≤ m → pollIntervalSeq m = 30 := by
    intro n hn m hm
    induction m, hm using Nat.le_induction with
    | base => exact hn
    | succ m hm ihm => exact hstay m ihm
  refine ⟨?_, rfl, ?_, ?_, ?_, ?_, hstay2, ?_⟩
  · exact waitForCompletionAux_sleeps_law poll timeout_secs hp fuel 0 0 0 res hrun
  · intro n
    rw [show pollIntervalSeq (n + 1) =
      pymin (pollIntervalSeq n * POLL_BACKOFF_FACTOR) MAX_POLL_INTERVAL from rfl]
    rw [pymin_eq_min, POLL_BACKOFF_FACTOR, MAX_POLL_INTERVAL]
  · norm_num [pollIntervalSeq, pymin, DEFAULT_POLL_INTERVAL, POLL_BACKOFF_FACTOR,
      MAX_POLL_INTERVAL]
  · norm_num [pollIntervalSeq, pymin, DEFAULT_POLL_INTERVAL, POLL_BACKOFF_FACTOR,
      MAX_POLL_INTERVAL]
  · norm_num [pollIntervalSeq, pymin, DEFAULT_POLL_INTERVAL, POLL_BACKOFF_FACTOR,
      MAX_POLL_INTERVAL]
  · intro n hn
    have h7 : pollIntervalSeq 7 = 30 := by
      norm_num [pollIntervalSeq, pymin, DEFAULT_POLL_INTERVAL, POLL_BACKOFF_FACTOR,
        MAX_POLL_INTERVAL]
    exact hstay2 7 h7 n hn

/-- C4 witness: a concrete never-terminal execution (server always `running`,
budget 10, enough fuel) that sleeps 2, 3, 4.5, 6.75 — the backoff law applied
to it. -/
theorem backoff_law_witness :
    (∃ m, ([2, 3, 9/2, 27/4] : List ℚ) = (List.range m).map pollIntervalSeq) ∧
    pollIntervalSeq 0 = 2 ∧
    (∀ n, pollIntervalSeq (n + 1) = min (pollIntervalSeq n * (3 / 2)) 30) ∧
    pollIntervalSeq 1 = 3 ∧
    pollIntervalSeq 2 = 9 / 2 ∧
    pollIntervalSeq 3 = 27 / 4 ∧
    (∀ n, pollIntervalSeq n = 30 → ∀ m, n ≤ m → pollIntervalSeq m = 30) ∧
    (∀ n, 7 ≤ n → pollIntervalSeq n = 30) := by
  have hr : inTerminalTuple "running" = false := by decide
  have hrun : waitForCompletion runningPoll 10 12 =
      some ⟨.timedOut, 4, [2, 3, 9/2, 27/4]⟩ := by
    norm_num [waitForCompletion, waitForCompletionAux, runningPoll, runningJob,
      hr, pymin, DEFAULT_POLL_INTERVAL, POLL_BACKOFF_FACTOR, MAX_POLL_INTERVAL]
  exact backoff_law runningPoll 10 12 ⟨.timedOut, 4, [2, 3, 9/2, 27/4]⟩
    (fun k => ⟨runningJob, rfl, hr⟩) hrun

end GoFetch
